import Mathlib

/-! Verification of the connection core of the `go-smtp` server library
(`mschneider82/go-smtp`).

The Go sources under verification are `conn.go`, `backend.go` and
`session.go`: the per-connection ESMTP/LMTP state machine. The dot-stuffed
DATA stream reader is specified by the repository but its implementation
file is not among the sources at hand (only its test, `textreader_test.go`);
it is modelled from the specification and validated against that test.

Modelling conventions:
* bytes are `Nat` values (13 = CR, 10 = LF, 46 = dot);
* Go strings are Lean `String`s; the slicing, splitting and ASCII case
  mapping used by the handlers is implemented over `String.data` so that
  every definition evaluates by kernel reduction;
* each handler is a pure function from the connection record to the new
  record plus the list of observable events (`WriteResponse` calls, session
  callbacks, transport close);
* host-application behaviour (backend, session, SASL mechanism, TLS
  handshake, LMTP delivery workers) is an explicit oracle argument; the
  LMTP `select` between a recipient's context and its status channel is
  abstracted by the oracle field `sel`, which names the alternative that
  wins for that recipient;
* a Go runtime panic inside a command handler is `Except.error`, carrying
  the connection record at the moment of the panic; the dispatcher's
  `recover` turns it into the `421` reply plus `Close`, as in `Conn.handle`.
-/

namespace GoSmtp

/-- Carriage-return byte. -/
def crB : Nat := 13

/-- Line-feed byte. -/
def lfB : Nat := 10

/-- ASCII dot byte. -/
def dotB : Nat := 46

/-! ## The dot reader (spec §4.2)

Modelled from the spec: the implementation file of the dot reader is not
among the sources, only its test. Per §4.2 and the §9 design note
"Streaming DATA", the reader is a small-lookahead state machine over the
wire bytes: lines are delimited by CRLF, a line consisting of a single dot
terminates the stream, any line-leading dot is stripped, intermediate
CRLFs are preserved byte-exactly, and a bare CR or LF inside the payload
passes through unchanged. The repository's test `Test_dotReader_Read`
pins down that the CRLF ending the last payload line (the CRLF that
precedes the terminating dot on the wire) belongs to the message. -/

/-- Reader states. `beginLine` is the start of a line, `data` is mid-line,
`cr` follows an emitted CR, `dot` follows a line-leading dot (which is
never emitted), `dotCR` follows a line-leading dot plus a withheld CR. -/
inductive RState
  | beginLine
  | data
  | cr
  | dot
  | dotCR
deriving DecidableEq, Repr

/-- Modelled from the spec (§4.2): run the dot reader over the wire bytes.
`some m` means the terminator was found and the message bytes are `m`;
`none` means the stream ended before the terminator. -/
def dotRun : RState → List Nat → Option (List Nat)
  | _, [] => none
  | .beginLine, b :: rest =>
    if b = dotB then dotRun .dot rest
    else if b = crB then (dotRun .cr rest).map (fun m => crB :: m)
    else (dotRun .data rest).map (fun m => b :: m)
  | .data, b :: rest =>
    if b = crB then (dotRun .cr rest).map (fun m => crB :: m)
    else (dotRun .data rest).map (fun m => b :: m)
  | .cr, b :: rest =>
    if b = lfB then (dotRun .beginLine rest).map (fun m => lfB :: m)
    else if b = crB then (dotRun .cr rest).map (fun m => crB :: m)
    else (dotRun .data rest).map (fun m => b :: m)
  | .dot, b :: rest =>
    if b = crB then dotRun .dotCR rest
    else (dotRun .data rest).map (fun m => b :: m)
  | .dotCR, b :: rest =>
    if b = lfB then some []
    else if b = crB then (dotRun .cr rest).map (fun m => crB :: crB :: m)
    else (dotRun .data rest).map (fun m => crB :: b :: m)

/-- The dot reader started at the beginning of the DATA payload. -/
def dotReaderRun (wire : List Nat) : Option (List Nat) := dotRun .beginLine wire

/-- Stuffer states: start of a line, mid-line, just after an emitted CR. -/
inductive SState
  | start
  | mid
  | sawCR
deriving DecidableEq, Repr

/-- Modelled from the spec (P4): dot-stuff a message — every line of the
message that starts with a dot gets one extra dot. Lines are delimited by
CRLF; a bare CR or LF does not end a line. -/
def stuffRun : SState → List Nat → List Nat
  | _, [] => []
  | .start, b :: rest =>
    if b = dotB then dotB :: dotB :: stuffRun .mid rest
    else if b = crB then crB :: stuffRun .sawCR rest
    else b :: stuffRun .mid rest
  | .mid, b :: rest =>
    if b = crB then crB :: stuffRun .sawCR rest
    else b :: stuffRun .mid rest
  | .sawCR, b :: rest =>
    if b = lfB then lfB :: stuffRun .start rest
    else if b = crB then crB :: stuffRun .sawCR rest
    else b :: stuffRun .mid rest

/-- Dot-stuffing from the start of a line. -/
def dotStuff (m : List Nat) : List Nat := stuffRun .start m

/-- The reader state that tracks each stuffer state. -/
def readerOf : SState → RState
  | .start => .beginLine
  | .mid => .data
  | .sawCR => .cr

/-- The wire terminator including the CRLF that ends the last payload
line: `<CR><LF>.<CR><LF>`. -/
def termBytes : List Nat := [crB, lfB, dotB, crB, lfB]

/-! ## ASCII string helpers

Go's `strings` and byte-slicing primitives, implemented over `String.data`
so that every definition evaluates by kernel reduction. The inputs the
server handles here are ASCII command lines, on which these agree with
the Go originals. -/

/-- ASCII upper-casing of one character (Go `strings.ToUpper`). -/
def upChar (ch : Char) : Char :=
  if 97 ≤ ch.toNat ∧ ch.toNat ≤ 122 then Char.ofNat (ch.toNat - 32) else ch

/-- ASCII lower-casing of one character (Go `strings.ToLower`). -/
def loChar (ch : Char) : Char :=
  if 65 ≤ ch.toNat ∧ ch.toNat ≤ 90 then Char.ofNat (ch.toNat + 32) else ch

/-- Go `strings.ToUpper` on ASCII input. -/
def gUpper (s : String) : String := ⟨s.data.map upChar⟩

/-- Go `strings.ToLower` on ASCII input. -/
def gLower (s : String) : String := ⟨s.data.map loChar⟩

/-- Split on a single-character separator; the result is never empty. -/
def gSplitCh (sep : Char) : List Char → List (List Char)
  | [] => [[]]
  | c :: rest =>
    let r := gSplitCh sep rest
    if c = sep then [] :: r
    else
      match r with
      | h :: t => (c :: h) :: t
      | [] => [[c]]

/-- Go `strings.Split` with a one-character separator. -/
def gSplit (s : String) (sep : Char) : List String :=
  (gSplitCh sep s.data).map (fun l => ⟨l⟩)

/-- Go `s[n:]` on ASCII input. -/
def gDrop (s : String) (n : Nat) : String := ⟨s.data.drop n⟩

/-- Go `s[0:n]` on ASCII input. -/
def gTake (s : String) (n : Nat) : String := ⟨s.data.take n⟩

/-- Go `len(s)` on ASCII input. -/
def gLen (s : String) : Nat := s.data.length

/-- Go `strings.Trim`: strip leading and trailing characters of `cut`. -/
def gTrim (s : String) (cut : List Char) : String :=
  ⟨((s.data.dropWhile (· ∈ cut)).reverse.dropWhile (· ∈ cut)).reverse⟩

/-- Go `strings.Fields` on space-separated input. -/
def goFields (s : String) : List String := (gSplit s ' ').filter (· ≠ "")

/-- Go `strings.HasPrefix`. -/
def gStarts (s pat : String) : Bool := decide (s.data.take pat.data.length = pat.data)

/-- Go `strings.HasSuffix`. -/
def gEnds (s pat : String) : Bool :=
  decide ((s.data.reverse.take pat.data.length).reverse = pat.data)

/-- Decimal digit accumulator for `gParseNat`. -/
def gDigitsAux : List Char → Nat → Option Nat
  | [], acc => some acc
  | c :: rest, acc =>
    if 48 ≤ c.toNat ∧ c.toNat ≤ 57 then gDigitsAux rest (acc * 10 + (c.toNat - 48))
    else none

/-- The `strconv.ParseInt(_, 10, 32)` use for the SIZE parameter, on the
digit strings it receives in the conversations considered. -/
def gParseNat (s : String) : Option Nat :=
  if s.data = [] then none else gDigitsAux s.data 0

/-! ## Base64 (Go `encoding/base64` StdEncoding)

`conn.go` decodes the client's AUTH initial response and continuation
lines and encodes server challenges; the standard alphabet with `=`
padding. -/

/-- The standard base64 alphabet. -/
def b64Alphabet : List Char :=
  "ABCDEFGHIJKLMNOPQRSTUVWXYZabcdefghijklmnopqrstuvwxyz0123456789+/".data

/-- Index of a character in the base64 alphabet. -/
def b64Val (ch : Char) : Option Nat := b64Alphabet.findIdx? (· = ch)

/-- Character for a 6-bit value. -/
def b64Char (n : Nat) : Char := b64Alphabet.getD n 'A'

/-- Go `base64.StdEncoding.EncodeToString`, three input bytes per group. -/
def base64EncodeCore : List Nat → List Char
  | b1 :: b2 :: b3 :: rest =>
    b64Char (b1 / 4) :: b64Char ((b1 % 4) * 16 + b2 / 16) ::
      b64Char ((b2 % 16) * 4 + b3 / 64) :: b64Char (b3 % 64) :: base64EncodeCore rest
  | [b1, b2] => [b64Char (b1 / 4), b64Char ((b1 % 4) * 16 + b2 / 16), b64Char ((b2 % 16) * 4), '=']
  | [b1] => [b64Char (b1 / 4), b64Char ((b1 % 4) * 16), '=', '=']
  | [] => []

/-- Go `base64.StdEncoding.EncodeToString`. -/
def base64Encode (bs : List Nat) : String := ⟨base64EncodeCore bs⟩

/-- Go `base64.StdEncoding.DecodeString`, four characters per group;
`none` is a decode error (bad length, bad character, bad padding). -/
def base64DecodeCore : List Char → Option (List Nat)
  | [] => some []
  | c1 :: c2 :: c3 :: c4 :: rest =>
    match b64Val c1, b64Val c2 with
    | some v1, some v2 =>
      if c3 = '=' then
        if c4 = '=' ∧ rest = [] then some [v1 * 4 + v2 / 16] else none
      else
        match b64Val c3 with
        | some v3 =>
          if c4 = '=' then
            if rest = [] then some [v1 * 4 + v2 / 16, (v2 % 16) * 16 + v3 / 4] else none
          else
            match b64Val c4 with
            | some v4 =>
              (base64DecodeCore rest).map
                (fun t => (v1 * 4 + v2 / 16) :: ((v2 % 16) * 16 + v3 / 4) :: ((v3 % 4) * 64 + v4) :: t)
            | none => none
        | none => none
    | _, _ => none
  | _ => none

/-- Go `base64.StdEncoding.DecodeString`. -/
def base64Decode (s : String) : Option (List Nat) := base64DecodeCore s.data

/-! ## Data model (`conn.go`, `backend.go`) -/

/-- Modelled from the spec (§3, §4.4): the RFC 3463 enhanced status code
triple, with the two sentinels `NoEnhancedCode` and `EnhancedCodeNotSet`
that `conn.go` references (their defining file is not among the sources). -/
inductive EnhancedCode
  | ec (x y z : Nat)
  | noCode
  | notSet
deriving DecidableEq, Repr

/-- Modelled from the spec (§3): the `SMTPError` carrier
`{Code, EnhancedCode, Message}` (its defining file is not among the
sources; `conn.go` consumes it). -/
structure SMTPError where
  code : Nat
  enhancedCode : EnhancedCode
  message : String
deriving DecidableEq, Repr

/-- A Go `error` as the handlers discriminate it: a `*SMTPError`, or any
other error exposing only `Error() string`. -/
inductive GoErr
  | smtp (e : SMTPError)
  | basic (msg : String)
deriving DecidableEq, Repr

/-- `backend.go`: `ErrAuthRequired = errors.New("Please authenticate first")`. -/
def ErrAuthRequired : GoErr := .basic "Please authenticate first"

/-- `backend.go`: `ErrAuthUnsupported = errors.New("Authentication not supported")`. -/
def ErrAuthUnsupported : GoErr := .basic "Authentication not supported"

/-- `conn.go`: the `XForward` record `{Name, Addr, Proto, Helo}`. -/
structure XFwd where
  name : String := ""
  addr : String := ""
  proto : String := ""
  helo : String := ""
deriving DecidableEq, Repr

/-- Observable actions of a connection: every `WriteResponse` call (code,
enhanced code and the text lines the handler passed), each session
callback, and the closing of the underlying transport. -/
inductive Event
  | reply (code : Nat) (enh : EnhancedCode) (texts : List String)
  | sessMail (sender : String)
  | sessRcpt (rcpt : String)
  | sessData
  | sessReset
  | sessLogout
  | connClosed
  | startedTLS
deriving DecidableEq, Repr

/-- The read-only server configuration consumed by `conn.go` (`Server` of
`backend.go`; defaults per spec §6.3, static capabilities and the PLAIN
mechanism from `newServer`). `auths` lists the registered SASL mechanism
names. -/
structure Server where
  domain : String := ""
  lmtp : Bool := false
  allowXForward : Bool := false
  authDisabled : Bool := false
  strict : Bool := false
  maxRecipients : Nat := 0
  maxMessageBytes : Nat := 0
  allowInsecureAuth : Bool := false
  tlsConfigured : Bool := false
  caps : List String := ["PIPELINING", "8BITMIME", "ENHANCEDSTATUSCODES"]
  auths : List String := ["PLAIN"]
deriving DecidableEq, Repr

/-- The mutable per-connection state of `Conn` (`conn.go`):
`recipientsmap` is the key set of the Go `map[string]struct{}` (read only
through membership and emptiness), `isTLS` is whether the transport is a
`*tls.Conn`, and `closed` records that `conn.Close()` was called on the
transport. The session pointer is abstracted to its nil-ness,
`hasSession`. -/
structure ConnS where
  helo : String := ""
  nbrErrors : Nat := 0
  hasSession : Bool := false
  fromReceived : Bool := false
  recipients : List String := []
  recipientsmap : List String := []
  xforward : XFwd := {}
  isTLS : Bool := false
  closed : Bool := false
deriving DecidableEq, Repr

/-- Which alternative the Go `select` in the LMTP reply loop takes for one
recipient: the recipient's context is done before a status arrives, or a
status arrives on its channel. -/
inductive RcptSel
  | ctxDone
  | status (st : SMTPError)

/-- What the session's `Data` handler did: its returned error, the
`SetSMTPResponse` override, and the per-recipient rendezvous outcome. -/
structure DataOutcome where
  err : Option GoErr := none
  smtpresponse : Option SMTPError := none
  sel : String → RcptSel := fun _ => .ctxDone

/-- One result of the SASL mechanism's `Next(response)`; `installsSession`
records that the mechanism called `Conn.SetSession` during this step (as
the PLAIN factory in `backend.go` does on a successful `Login`). -/
structure SaslStep where
  challenge : List Nat := []
  done : Bool := false
  err : Option GoErr := none
  installsSession : Bool := false
deriving DecidableEq, Repr

/-- The host-application behaviour visible to one connection: results of
`Backend.AnonymousLogin` and of `Session.Mail` / `Session.Rcpt`, the
`Data` outcome, the SASL mechanism's step results (indexed by call
number), and whether the STARTTLS handshake fails. -/
structure Oracle where
  anonymousLogin : Option GoErr := none
  mailErr : String → Option GoErr := fun _ => none
  rcptErr : String → Option GoErr := fun _ => none
  dataOutcome : DataOutcome := {}
  saslSteps : Nat → SaslStep := fun _ => {}
  handshakeErr : Bool := false

/-! ## Command handlers (`conn.go`) -/

/-- `conn.go` `Conn.Close`: invoke `Logout` when a session exists, then
close the transport. The session reference is not cleared. -/
def close (c : ConnS) : ConnS × List Event :=
  ({ c with closed := true },
   (if c.hasSession then [Event.sessLogout] else []) ++ [Event.connClosed])

/-- `conn.go` `Conn.reset`: call `session.Reset` when a session exists and
clear the envelope (`fromReceived`, `recipients`, `recipientsmap`,
`XForward`). `helo` and the session are untouched. -/
def reset (c : ConnS) : ConnS × List Event :=
  ({ c with fromReceived := false, recipients := [], recipientsmap := [], xforward := {} },
   if c.hasSession then [Event.sessReset] else [])

/-- `conn.go` `Conn.unrecognizedCommand`: reply with the per-command
syntax error, bump the error budget, and when it exceeds 3 also reply
`Too many unrecognized commands` and close. -/
def unrecognizedCommand (c : ConnS) (cmd : String) : ConnS × List Event :=
  let ev := Event.reply 500 (.ec 5 5 2) ["Syntax error, " ++ cmd ++ " command unrecognized"]
  let c := { c with nbrErrors := c.nbrErrors + 1 }
  if c.nbrErrors > 3 then
    let r := close c
    (r.1, ev :: Event.reply 500 (.ec 5 5 2) ["Too many unrecognized commands"] :: r.2)
  else (c, [ev])

/-- Modelled from the spec (§4.5): `parseHelloArgument` is referenced by
`conn.go` but defined outside the sources; the greeting argument must
parse as a hostname — the first space-separated token, failing when it is
empty. -/
def parseHelloArgument (arg : String) : Option String :=
  let domain := (gSplit arg ' ').headD ""
  if domain = "" then none else some domain

/-- `conn.go` `Conn.authAllowed`. -/
def authAllowed (srv : Server) (c : ConnS) : Bool :=
  !srv.authDisabled && (c.isTLS || srv.allowInsecureAuth)

/-- `conn.go` `Conn.handleGreet`. -/
def handleGreet (srv : Server) (c : ConnS) (enhanced : Bool) (arg : String) :
    ConnS × List Event :=
  if !enhanced then
    match parseHelloArgument arg with
    | none => (c, [Event.reply 501 (.ec 5 5 2) ["Domain/address argument required for HELO"]])
    | some domain =>
      ({ c with helo := domain }, [Event.reply 250 (.ec 2 0 0) ["Hello " ++ domain]])
  else
    match parseHelloArgument arg with
    | none => (c, [Event.reply 501 (.ec 5 5 2) ["Domain/address argument required for EHLO"]])
    | some domain =>
      let caps := srv.caps
      let caps := caps ++ (if srv.tlsConfigured && !c.isTLS then ["STARTTLS"] else [])
      let caps := caps ++
        (if authAllowed srv c then [srv.auths.foldl (fun s n => s ++ " " ++ n) "AUTH"] else [])
      let caps := caps ++
        (if srv.maxMessageBytes > 0 then ["SIZE " ++ toString srv.maxMessageBytes] else [])
      let caps := caps ++ (if srv.allowXForward then ["XFORWARD NAME ADDR PROTO HELO"] else [])
      ({ c with helo := domain }, [Event.reply 250 .noCode (("Hello " ++ domain) :: caps)])

/-- `conn.go` `Conn.handleXForward`'s token loop: a recognized key reads
`kv[1]`, which in Go panics with index-out-of-range when the token has no
`=`; the panic is `Except.error`, carrying the state at that moment
(earlier tokens' assignments included). An unknown key replies `501` and
returns. -/
def xforwardLoop : ConnS → List String → Except ConnS (ConnS × List Event)
  | c, [] => .ok (c, [Event.reply 250 (.ec 2 0 0) ["Ok"]])
  | c, a :: rest =>
    let kv := gSplit a '='
    let key := gUpper (kv.headD "")
    if key = "NAME" then
      match kv.get? 1 with
      | none => .error c
      | some v => xforwardLoop { c with xforward := { c.xforward with name := v } } rest
    else if key = "ADDR" then
      match kv.get? 1 with
      | none => .error c
      | some v => xforwardLoop { c with xforward := { c.xforward with addr := v } } rest
    else if key = "PROTO" then
      match kv.get? 1 with
      | none => .error c
      | some v => xforwardLoop { c with xforward := { c.xforward with proto := v } } rest
    else if key = "HELO" then
      match kv.get? 1 with
      | none => .error c
      | some v => xforwardLoop { c with xforward := { c.xforward with helo := v } } rest
    else
      .ok (c, [Event.reply 501 (.ec 2 5 1) ["Bad command parameter syntax"]])

/-- `conn.go` `Conn.handleXForward`. -/
def handleXForward (c : ConnS) (arg : String) : Except ConnS (ConnS × List Event) :=
  xforwardLoop c (gSplit arg ' ')

/-- Modelled from the spec (§4.3): ESMTP parameters are space-separated
`KEY=VALUE` tokens with the key uppercased; any other non-empty token is a
parse error (`parseArgs` is referenced by `conn.go` but defined outside
the sources). -/
def parseArgs : List String → Option (List (String × String))
  | [] => some []
  | a :: rest =>
    if a = "" then parseArgs rest
    else
      match gSplit a '=' with
      | [k, v] => (parseArgs rest).map (fun m => (gUpper k, v) :: m)
      | _ => none

/-- Go map lookup with zero-value semantics: a missing key reads as `""`. -/
def argLookup (m : List (String × String)) (k : String) : String :=
  match m.find? (fun kv => kv.1 == k) with
  | some kv => kv.2
  | none => ""

/-- `conn.go` `Conn.handleMail`. -/
def handleMail (srv : Server) (o : Oracle) (c : ConnS) (arg : String) : ConnS × List Event :=
  if c.helo = "" then
    (c, [Event.reply 502 (.ec 2 5 1) ["Please introduce yourself first."]])
  else
    let login : Except (List Event) ConnS :=
      if !c.hasSession then
        match o.anonymousLogin with
        | some (.smtp e) => .error [Event.reply e.code e.enhancedCode [e.message]]
        | some (.basic m) => .error [Event.reply 502 (.ec 5 7 0) [m]]
        | none => .ok { c with hasSession := true }
      else .ok c
    match login with
    | .error evs => (c, evs)
    | .ok c =>
      if gLen arg < 6 ∨ gUpper (gTake arg 5) ≠ "FROM:" then
        (c, [Event.reply 501 (.ec 5 5 2) ["Was expecting MAIL arg syntax of FROM:<address>"]])
      else
        let fromArgs := gSplit (gTrim (gDrop arg 5) [' ']) ' '
        let from0 := fromArgs.headD ""
        if srv.strict && !(gStarts from0 "<" && gEnds from0 ">") then
          (c, [Event.reply 501 (.ec 5 5 2) ["Was expecting MAIL arg syntax of FROM:<address>"]])
        else if from0 = "" then
          (c, [Event.reply 501 (.ec 5 5 2) ["Was expecting MAIL arg syntax of FROM:<address>"]])
        else
          let sender := gTrim from0 ['<', '>']
          let szCheck : Option (List Event) :=
            if fromArgs.length > 1 then
              match parseArgs fromArgs.tail with
              | none => some [Event.reply 501 (.ec 5 5 4) ["Unable to parse MAIL ESMTP parameters"]]
              | some args =>
                if argLookup args "SIZE" ≠ "" then
                  match gParseNat (argLookup args "SIZE") with
                  | none => some [Event.reply 501 (.ec 5 5 4) ["Unable to parse SIZE as an integer"]]
                  | some size =>
                    if srv.maxMessageBytes > 0 ∧ size > srv.maxMessageBytes then
                      some [Event.reply 552 (.ec 5 3 4) ["Max message size exceeded"]]
                    else none
                else none
            else none
          match szCheck with
          | some evs => (c, evs)
          | none =>
            match o.mailErr sender with
            | some (.smtp e) =>
              (c, [Event.sessMail sender, Event.reply e.code e.enhancedCode [e.message]])
            | some (.basic m) =>
              (c, [Event.sessMail sender, Event.reply 451 (.ec 4 0 0) [m]])
            | none =>
              ({ c with fromReceived := true },
               [Event.sessMail sender,
                Event.reply 250 (.ec 2 0 0) ["Roger, accepting mail from <" ++ sender ++ ">"]])

/-- `conn.go` `Conn.handleRcpt`. -/
def handleRcpt (srv : Server) (o : Oracle) (c : ConnS) (arg : String) : ConnS × List Event :=
  if !c.fromReceived then
    (c, [Event.reply 502 (.ec 5 5 1) ["Missing MAIL FROM command."]])
  else if gLen arg < 4 ∨ gUpper (gTake arg 3) ≠ "TO:" then
    (c, [Event.reply 501 (.ec 5 5 2) ["Was expecting RCPT arg syntax of TO:<address>"]])
  else
    let recipient := gTrim (gDrop arg 3) ['<', '>', ' ']
    if srv.maxRecipients > 0 ∧ c.recipients.length ≥ srv.maxRecipients then
      (c, [Event.reply 552 (.ec 5 5 3)
            ["Maximum limit of " ++ toString srv.maxRecipients ++ " recipients reached"]])
    else if srv.lmtp ∧ gLower recipient ∈ c.recipientsmap then
      (c, [Event.reply 451 (.ec 4 0 0)
            ["Duplicate RCPT TO:<" ++ recipient ++ ">. Please try again later."]])
    else
      match o.rcptErr recipient with
      | some (.smtp e) =>
        (c, [Event.sessRcpt recipient, Event.reply e.code e.enhancedCode [e.message]])
      | some (.basic m) =>
        (c, [Event.sessRcpt recipient, Event.reply 451 (.ec 4 0 0) [m]])
      | none =>
        ({ c with recipients := c.recipients ++ [gLower recipient],
                  recipientsmap := c.recipientsmap ++ [gLower recipient] },
         [Event.sessRcpt recipient,
          Event.reply 250 (.ec 2 0 0) ["I'll make sure <" ++ recipient ++ "> gets this"]])

/-- The LMTP final reply for one recipient, as written by
`Conn.handleData`: the `select` between the recipient's context and its
status channel is decided by the oracle's `RcptSel`. -/
def lmtpReply (o : Oracle) (rcpt : String) : Event :=
  match o.dataOutcome.sel rcpt with
  | .ctxDone => .reply 420 (.ec 4 4 7) ["<" ++ rcpt ++ "> " ++ "Error: timeout reached"]
  | .status st => .reply st.code st.enhancedCode ["<" ++ rcpt ++ "> " ++ st.message]

/-- `conn.go` `Conn.handleData`. The drain of the dot reader after the
handler returns is not an observable event; calling `Data` on a nil
session (unreachable in a real conversation, where `fromReceived` implies
a session) is modelled as the plain `sessData` event. -/
def handleData (srv : Server) (o : Oracle) (c : ConnS) (arg : String) : ConnS × List Event :=
  if arg ≠ "" then
    (c, [Event.reply 501 (.ec 5 5 4) ["DATA command should not have any arguments"]])
  else if ¬c.fromReceived ∨ c.recipients = [] then
    (c, [Event.reply 502 (.ec 5 5 1) ["Missing RCPT TO command."]])
  else
    let intro := Event.reply 354 (.ec 2 0 0) ["Go ahead. End your data with <CR><LF>.<CR><LF>"]
    let outcome :=
      match o.dataOutcome.err with
      | some (.smtp e) => (e.code, e.enhancedCode, e.message)
      | some (.basic m) =>
        (554, EnhancedCode.ec 5 0 0, "Error: transaction failed, blame it on the weather: " ++ m)
      | none =>
        match o.dataOutcome.smtpresponse with
        | none => (250, EnhancedCode.ec 2 0 0, "OK: queued")
        | some r => (r.code, r.enhancedCode, r.message)
    let finals :=
      if srv.lmtp then c.recipients.map (lmtpReply o)
      else [Event.reply outcome.1 outcome.2.1 [outcome.2.2]]
    let r := reset c
    (r.1, intro :: Event.sessData :: (finals ++ r.2))

/-- `conn.go` `Conn.handleStartTLS`: on the non-rejected path (even after
a failed handshake, which only adds the `550` reply — the function does
not return there) the transport is swapped for the TLS one and `reset` is
called; `reset` does not touch `helo`. -/
def handleStartTLS (srv : Server) (o : Oracle) (c : ConnS) : ConnS × List Event :=
  if c.isTLS then
    (c, [Event.reply 502 (.ec 5 5 1) ["Already running in TLS"]])
  else if !srv.tlsConfigured then
    (c, [Event.reply 502 (.ec 5 5 1) ["TLS not supported"]])
  else
    let evs := Event.reply 220 (.ec 2 0 0) ["Ready to start TLS"] ::
      (if o.handshakeErr then [Event.reply 550 (.ec 5 0 0) ["Handshake error"]] else [])
    let r := reset { c with isTLS := true }
    (r.1, evs ++ [Event.startedTLS] ++ r.2)

/-- The challenge loop of `conn.go` `Conn.handleAuth`. The mechanism's
`Next` results come from the oracle (`steps i` is the result of the i-th
call; the decoded client response is passed to `Next` in Go, and the
oracle already fixes the mechanism's behaviour along this exchange);
`lines` are the continuation lines the client sends after `334`
challenges. Returns the state, the events, and whether the loop finished
via `done` (only then does `handleAuth` reach the `235` check). -/
def authLoop (steps : Nat → SaslStep) : Nat → List String → ConnS → ConnS × List Event × Bool
  | i, lines, c =>
    let st := steps i
    let c := if st.installsSession then { c with hasSession := true } else c
    match st.err with
    | some (.smtp e) => (c, [Event.reply e.code e.enhancedCode [e.message]], false)
    | some (.basic m) => (c, [Event.reply 454 (.ec 4 7 0) [m]], false)
    | none =>
      if st.done then (c, [], true)
      else
        let encoded := if st.challenge.length > 0 then base64Encode st.challenge else ""
        let ev := Event.reply 334 .noCode [encoded]
        match lines with
        | [] => (c, [ev], false)
        | l :: rest =>
          match base64Decode l with
          | none => (c, [ev, Event.reply 454 (.ec 4 7 0) ["Invalid base64 data"]], false)
          | some _ =>
            let r := authLoop steps (i + 1) rest c
            (r.1, ev :: r.2.1, r.2.2)

/-- `conn.go` `Conn.handleAuth`. Note the source's order: a bad base64
initial response on the AUTH line makes the handler return with no reply,
before the mechanism is even looked up. -/
def handleAuth (srv : Server) (o : Oracle) (c : ConnS) (arg : String) (lines : List String) :
    ConnS × List Event :=
  if c.helo = "" then
    (c, [Event.reply 502 (.ec 5 5 1) ["Please introduce yourself first."]])
  else
    match goFields arg with
    | [] => (c, [Event.reply 502 (.ec 5 5 4) ["Missing parameter"]])
    | p0 :: prest =>
      let mechanism := gUpper p0
      let ir : Option (Option (List Nat)) :=
        match prest with
        | [] => some none
        | p1 :: _ =>
          match base64Decode p1 with
          | none => none
          | some bs => some (some bs)
      match ir with
      | none => (c, [])
      | some _ =>
        if mechanism ∉ srv.auths then
          (c, [Event.reply 504 (.ec 5 7 4) ["Unsupported authentication mechanism"]])
        else
          let r := authLoop o.saslSteps 0 lines c
          if r.2.2 && r.1.hasSession then
            (r.1, r.2.1 ++ [Event.reply 235 (.ec 2 0 0) ["Authentication succeeded"]])
          else (r.1, r.2.1)

/-- `conn.go` `Conn.handle` before the panic guard: `Except.error` carries
the state at a Go runtime panic (only `handleXForward` panics in this
model; the LMTP nil-map lookup is abstracted by the oracle). Commands
arrive pre-parsed as verb and argument (`parseCmd` lives outside the
sources; spec §4.3); `lines` are the extra client lines available to an
AUTH exchange. -/
def handleCore (srv : Server) (o : Oracle) (c : ConnS) (cmd arg : String)
    (lines : List String) : Except ConnS (ConnS × List Event) :=
  if cmd = "" then .ok (c, [Event.reply 500 (.ec 5 5 2) ["Speak up"]])
  else
    let cmdU := gUpper cmd
    if cmdU ∈ ["SEND", "SOML", "SAML", "EXPN", "HELP", "TURN"] then
      .ok (c, [Event.reply 502 (.ec 5 5 1) [cmdU ++ " command not implemented"]])
    else if cmdU = "HELO" ∨ cmdU = "EHLO" ∨ cmdU = "LHLO" then
      let lmtp := cmdU == "LHLO"
      let enhanced := lmtp || cmdU == "EHLO"
      let pre :=
        (if srv.lmtp && !lmtp then
          [Event.reply 500 (.ec 5 5 1) ["This is a LMTP server, use LHLO"]] else []) ++
        (if !srv.lmtp && lmtp then
          [Event.reply 500 (.ec 5 5 1) ["This is not a LMTP server"]] else [])
      let r := handleGreet srv c enhanced arg
      .ok (r.1, pre ++ r.2)
    else if cmdU = "XFORWARD" then
      if !srv.allowXForward then .ok (unrecognizedCommand c cmdU)
      else handleXForward c arg
    else if cmdU = "MAIL" then .ok (handleMail srv o c arg)
    else if cmdU = "RCPT" then .ok (handleRcpt srv o c arg)
    else if cmdU = "VRFY" then
      .ok (c, [Event.reply 252 (.ec 2 5 0) ["Cannot VRFY user, but will accept message"]])
    else if cmdU = "NOOP" then
      .ok (c, [Event.reply 250 (.ec 2 0 0) ["I have sucessfully done nothing"]])
    else if cmdU = "RSET" then
      let r := reset c
      .ok (r.1, r.2 ++ [Event.reply 250 (.ec 2 0 0) ["Session reset"]])
    else if cmdU = "DATA" then .ok (handleData srv o c arg)
    else if cmdU = "QUIT" then
      let r := close c
      .ok (r.1, Event.reply 221 (.ec 2 0 0) ["Goodnight and good luck"] :: r.2)
    else if cmdU = "AUTH" then
      if srv.authDisabled then .ok (unrecognizedCommand c cmdU)
      else .ok (handleAuth srv o c arg lines)
    else if cmdU = "STARTTLS" then .ok (handleStartTLS srv o c)
    else .ok (unrecognizedCommand c cmdU)

/-- `conn.go` `Conn.handle` with the per-command panic guard: a recovered
panic writes `421 4.0.0 Internal server error` and closes the
connection. -/
def handle (srv : Server) (o : Oracle) (c : ConnS) (cmd arg : String)
    (lines : List String) : ConnS × List Event :=
  match handleCore srv o c cmd arg lines with
  | .ok r => r
  | .error cp =>
    let r := close cp
    (r.1, Event.reply 421 (.ec 4 0 0) ["Internal server error"] :: r.2)

/-! ## The serve loop (`backend.go` `Server.handleConn`) -/

/-- One client command line, pre-parsed into verb and argument (the line
parser lives outside the sources; spec §4.3), plus the continuation lines
an AUTH exchange may read. -/
structure ClientCmd where
  verb : String
  arg : String := ""
  cont : List String := []

/-- Fold of `handle` over a command sequence on an open connection — the
dispatch part of `Server.handleConn`'s read loop, without teardown. -/
def runHandlers (srv : Server) (o : Oracle) : ConnS → List ClientCmd → ConnS × List Event
  | c, [] => (c, [])
  | c, l :: rest =>
    let r := handle srv o c l.verb l.arg l.cont
    let r2 := runHandlers srv o r.1 rest
    (r2.1, r.2 ++ r2.2)

/-- `backend.go` `Server.handleConn` after the greeting: read commands
until the client stream ends (EOF → clean return) or the transport has
been closed by a handler — the next read then fails with a non-EOF,
non-timeout error, so the loop writes `221 2.4.0 Connection error, sorry`
(the write error on the closed transport is discarded) and returns; in
every case the deferred teardown then calls `c.Close()` again. -/
def serveLoop (srv : Server) (o : Oracle) : ConnS → List ClientCmd → ConnS × List Event
  | c, [] =>
    if c.closed then
      let r := close c
      (r.1, Event.reply 221 (.ec 2 4 0) ["Connection error, sorry"] :: r.2)
    else close c
  | c, l :: rest =>
    if c.closed then
      let r := close c
      (r.1, Event.reply 221 (.ec 2 4 0) ["Connection error, sorry"] :: r.2)
    else
      let r := handle srv o c l.verb l.arg l.cont
      let r2 := serveLoop srv o r.1 rest
      (r2.1, r.2 ++ r2.2)

/-- `Server.handleConn` on a fresh connection: the `220` greeting, the
read loop, and the deferred `Close`. -/
def handleConn (srv : Server) (o : Oracle) (cmds : List ClientCmd) : ConnS × List Event :=
  let r := serveLoop srv o {} cmds
  (r.1, Event.reply 220 .noCode [srv.domain ++ " ESMTP Service Ready"] :: r.2)

/-! ## Fixtures used by witnesses -/

/-- The reply code of an event, when the event is a reply. -/
def replyCode : Event → Option Nat
  | .reply n _ _ => some n
  | _ => none

/-- An LMTP-mode server. -/
def lmtpSrv : Server := { lmtp := true }

/-- An oracle for an LMTP delivery: the session's `Data` handler returned
an error (which LMTP mode must ignore), the second recipient's context
expires first, the others get a `250 Finished` status. -/
def lmtpOracle : Oracle :=
  { dataOutcome :=
      { err := some (.basic "ignored in lmtp mode"),
        sel := fun r =>
          if r = "r2@y" then .ctxDone else .status ⟨250, .ec 2 0 0, "Finished"⟩ } }

/-- A connection that has accepted three recipients. -/
def lmtpConn : ConnS :=
  { helo := "c", hasSession := true, fromReceived := true,
    recipients := ["r1@y", "r2@y", "r3@y"], recipientsmap := ["r1@y", "r2@y", "r3@y"] }

/-! ## Theorems -/

/-- Round-trip invariant of the dot reader against the dot stuffer, with
the reader state tracking the stuffer state. -/
theorem dotRun_stuffRun (M : List Nat) :
    ∀ s : SState, dotRun (readerOf s) (stuffRun s M ++ termBytes) = some (M ++ [crB, lfB]) := by
  induction M with
  | nil => intro s; cases s <;> rfl
  | cons b rest ih =>
    have ihs := ih SState.start
    have ihm := ih SState.mid
    have ihc := ih SState.sawCR
    simp only [readerOf] at ihs ihm ihc
    intro s
    cases s
    case start =>
      by_cases hd : b = dotB
      · subst hd; simp +decide [stuffRun, dotRun, readerOf, ihm]
      · by_cases hc : b = crB
        · subst hc; simp +decide [stuffRun, dotRun, readerOf, ihc]
        · simp [stuffRun, dotRun, readerOf, hd, hc, ihm]
    case mid =>
      by_cases hc : b = crB
      · subst hc; simp +decide [stuffRun, dotRun, readerOf, ihc]
      · simp [stuffRun, dotRun, readerOf, hc, ihm]
    case sawCR =>
      by_cases hl : b = lfB
      · subst hl; simp +decide [stuffRun, dotRun, readerOf, ihs]
      · by_cases hc : b = crB
        · subst hc; simp +decide [stuffRun, dotRun, readerOf, ihc]
        · simp [stuffRun, dotRun, readerOf, hl, hc, ihm]

/-- The dot-reader model reproduces the repository's test
`Test_dotReader_Read` (`textreader_test.go`): the wire bytes
`Test<CRLF>NeueZeile<CRLF>.<CRLF>` yield the message
`Test<CRLF>NeueZeile<CRLF>` — the CRLF that precedes the terminating dot
belongs to the message. -/
theorem dotReader_src_test :
    dotReaderRun (("Test\r\nNeueZeile\r\n.\r\n".data).map Char.toNat)
      = some (("Test\r\nNeueZeile\r\n".data).map Char.toNat) := by decide

/-- C3, counterexample. The claim's round-trip formula fails already at
the empty message `M = []` (which contains no `<CR><LF>.<CR><LF>`):
framing it as `dotStuff M ++ "\r\n.\r\n"` and feeding the result through
the dot reader yields the two bytes `<CR><LF>` — the CRLF preceding the
terminating dot is part of the message, as the repository's own test
mandates — and not the empty `M`. -/
theorem dotReader_p4_cex :
    ¬ [crB, lfB, dotB, crB, lfB] <:+: ([] : List Nat)
      ∧ dotReaderRun (dotStuff [] ++ [crB, lfB, dotB, crB, lfB]) = some [crB, lfB]
      ∧ some [crB, lfB] ≠ some ([] : List Nat) := by
  refine ⟨fun h => ?_, by decide, by decide⟩
  obtain ⟨s, t, hst⟩ := h
  simpa using congrArg List.length hst

/-- C3, amended. For every byte sequence `M`, framing `M` as
`dotStuff M ++ "\r\n.\r\n"` and feeding the result through the dot reader
yields exactly `M ++ "\r\n"`: the payload with its intermediate CRLFs
preserved, plus the CRLF that precedes the terminating dot (equivalently:
for `M` empty or CRLF-terminated, `dotStuff M ++ ".\r\n"` yields exactly
`M`). In particular the framed input `.\r\n` alone yields a zero-length
message, and a framed line `..\r\n` yields the line `.\r\n`. -/
theorem dotReader_roundtrip :
    (∀ M : List Nat,
      dotReaderRun (dotStuff M ++ [crB, lfB, dotB, crB, lfB]) = some (M ++ [crB, lfB]))
      ∧ dotReaderRun [dotB, crB, lfB] = some []
      ∧ dotReaderRun [dotB, dotB, crB, lfB, dotB, crB, lfB] = some [dotB, crB, lfB] := by
  refine ⟨fun M => ?_, by decide, by decide⟩
  simpa [dotReaderRun, dotStuff, readerOf, termBytes] using dotRun_stuffRun M SState.start

/-- C1. On the accepted connection that runs `EHLO`, `MAIL` (which
installs a session via `AnonymousLogin`) and `QUIT`, the code invokes
`session.Logout` twice, not once: the QUIT handler's `Close` calls
`Logout`, the session reference is not cleared, and the serve loop's
deferred teardown calls `Close` — and hence `Logout` — again. -/
theorem quit_invokes_logout_twice :
    ((handleConn {} {}
        [⟨"EHLO", "client.example", []⟩, ⟨"MAIL", "FROM:<a@b>", []⟩,
         ⟨"QUIT", "", []⟩]).2.count Event.sessLogout) = 2 := by decide

/-- C2. After `EHLO c`, `MAIL FROM:<a@x>` and a successful STARTTLS
handshake, the envelope is cleared but `helo` is still `"c"` (the
`reset` that `handleStartTLS` performs does not touch `helo`), so the
next `MAIL FROM:<a@x>` issued before any new EHLO is accepted with
`250 2.0.0 Roger, accepting mail from <a@x>` — not rejected with
`502 2.5.1 Please introduce yourself first.` as the spec mandates. -/
theorem starttls_keeps_helo :
    (runHandlers { tlsConfigured := true } {} {}
        [⟨"EHLO", "c", []⟩, ⟨"MAIL", "FROM:<a@x>", []⟩, ⟨"STARTTLS", "", []⟩]).1.helo = "c"
      ∧ (runHandlers { tlsConfigured := true } {} {}
          [⟨"EHLO", "c", []⟩, ⟨"MAIL", "FROM:<a@x>", []⟩, ⟨"STARTTLS", "", []⟩]).1.fromReceived
          = false
      ∧ (handle { tlsConfigured := true } {}
          (runHandlers { tlsConfigured := true } {} {}
            [⟨"EHLO", "c", []⟩, ⟨"MAIL", "FROM:<a@x>", []⟩, ⟨"STARTTLS", "", []⟩]).1
          "MAIL" "FROM:<a@x>" []).2
        = [Event.sessMail "a@x",
           Event.reply 250 (.ec 2 0 0) ["Roger, accepting mail from <a@x>"]] := by decide

/-- C5, counterexample. Four unrecognized commands suffice to close the
connection: after three `FOO`s the conversation is still open, but the
fourth already draws `500 5.5.2 Too many unrecognized commands` and
closes — contradicting the claim that the budget is exhausted only on the
fifth and that every unrecognized command before the fifth leaves the
conversation running. -/
theorem unrecognized_budget_cex :
    (runHandlers {} {} {}
        [⟨"FOO", "", []⟩, ⟨"FOO", "", []⟩, ⟨"FOO", "", []⟩]).1.closed = false
      ∧ (runHandlers {} {} {}
          [⟨"FOO", "", []⟩, ⟨"FOO", "", []⟩, ⟨"FOO", "", []⟩, ⟨"FOO", "", []⟩]).1.closed = true
      ∧ ((runHandlers {} {} {}
          [⟨"FOO", "", []⟩, ⟨"FOO", "", []⟩, ⟨"FOO", "", []⟩, ⟨"FOO", "", []⟩]).2.count
          (Event.reply 500 (.ec 5 5 2) ["Too many unrecognized commands"])) = 1 := by decide

/-- C5, amended. An unrecognized command always draws the
`500 5.5.2 Syntax error` reply; on the 4th one (error budget above 3) the
server additionally emits `500 5.5.2 Too many unrecognized commands` and
closes the connection, while the first three leave the conversation
running with only the budget incremented. -/
theorem unrecognized_budget (srv : Server) (o : Oracle) (c : ConnS) (arg : String)
    (lines : List String) :
    handle srv o c "FOO" arg lines
      = if c.nbrErrors + 1 > 3 then
          ({ c with nbrErrors := c.nbrErrors + 1, closed := true },
           Event.reply 500 (.ec 5 5 2) ["Syntax error, FOO command unrecognized"]
             :: Event.reply 500 (.ec 5 5 2) ["Too many unrecognized commands"]
             :: ((if c.hasSession then [Event.sessLogout] else []) ++ [Event.connClosed]))
        else
          ({ c with nbrErrors := c.nbrErrors + 1 },
           [Event.reply 500 (.ec 5 5 2) ["Syntax error, FOO command unrecognized"]]) := by
  have hcore : handleCore srv o c "FOO" arg lines = .ok (unrecognizedCommand c "FOO") := by
    simp +decide [handleCore, show gUpper "FOO" = "FOO" from rfl]
  simp only [handle, hcore]
  by_cases h : c.nbrErrors + 1 > 3 <;> simp [unrecognizedCommand, close, h]

/-- C6. State gating, over every connection state: `MAIL` is rejected
with the `502` reply `Please introduce yourself first.` unless `helo` is
non-empty, `RCPT` with the `502` reply `Missing MAIL FROM command.`
unless `fromReceived`, and `DATA` (with its canonical empty argument)
with the `502` reply `Missing RCPT TO command.` unless `fromReceived`
holds and the recipient list is non-empty; in each rejected case the
state — envelope included — is returned unchanged and the only event is
that reply, so no session callback runs. -/
theorem state_gating (srv : Server) (o : Oracle) (c : ConnS) (arg : String)
    (lines : List String) :
    (c.helo = "" →
      handle srv o c "MAIL" arg lines
        = (c, [Event.reply 502 (.ec 2 5 1) ["Please introduce yourself first."]]))
      ∧ (c.fromReceived = false →
        handle srv o c "RCPT" arg lines
          = (c, [Event.reply 502 (.ec 5 5 1) ["Missing MAIL FROM command."]]))
      ∧ (¬(c.fromReceived = true ∧ c.recipients ≠ []) →
        handle srv o c "DATA" "" lines
          = (c, [Event.reply 502 (.ec 5 5 1) ["Missing RCPT TO command."]])) := by
  have hmail : handleCore srv o c "MAIL" arg lines = .ok (handleMail srv o c arg) := by
    simp +decide [handleCore, show gUpper "MAIL" = "MAIL" from rfl]
  have hrcpt : handleCore srv o c "RCPT" arg lines = .ok (handleRcpt srv o c arg) := by
    simp +decide [handleCore, show gUpper "RCPT" = "RCPT" from rfl]
  have hdata : handleCore srv o c "DATA" "" lines = .ok (handleData srv o c "") := by
    simp +decide [handleCore, show gUpper "DATA" = "DATA" from rfl]
  refine ⟨fun h => ?_, fun h => ?_, fun h => ?_⟩
  · simp only [handle, hmail]
    simp [handleMail, h]
  · simp only [handle, hrcpt]
    simp [handleRcpt, h]
  · simp only [handle, hdata]
    cases hf : c.fromReceived with
    | false => simp [handleData, hf]
    | true =>
      have hr : c.recipients = [] := by
        by_contra hne
        exact h ⟨hf, hne⟩
      simp [handleData, hf, hr]

/-- C6, witness: the gating theorem applied to the fresh connection
state, discharging each hypothesis there. -/
theorem state_gating_witness :
    (({} : ConnS).helo = ""
        ∧ handle {} {} {} "MAIL" "FROM:<a@b>" []
            = ({}, [Event.reply 502 (.ec 2 5 1) ["Please introduce yourself first."]]))
      ∧ (({} : ConnS).fromReceived = false
        ∧ handle {} {} {} "RCPT" "TO:<b@y>" []
            = ({}, [Event.reply 502 (.ec 5 5 1) ["Missing MAIL FROM command."]]))
      ∧ (¬(({} : ConnS).fromReceived = true ∧ ({} : ConnS).recipients ≠ [])
        ∧ handle {} {} {} "DATA" "" []
            = ({}, [Event.reply 502 (.ec 5 5 1) ["Missing RCPT TO command."]])) :=
  ⟨⟨rfl, (state_gating {} {} {} "FROM:<a@b>" []).1 rfl⟩,
   ⟨rfl, (state_gating {} {} {} "TO:<b@y>" []).2.1 rfl⟩,
   ⟨by decide, (state_gating {} {} {} "" []).2.2 (by decide)⟩⟩

/-- C4. In LMTP mode, after `session.Data` returns, the server emits
exactly one final reply per accepted recipient — the map over
`c.recipients`, hence in RCPT acceptance order, regardless of the order
in which delivery workers complete (each recipient's rendezvous outcome
is the oracle's `sel`): a recipient whose context is done before a status
arrives gets `420 4.4.7 <rcpt> Error: timeout reached`, one with a
delivered status gets that status's code, enhanced code and message. The
right-hand side does not mention `o.dataOutcome.err`: the error returned
by `session.Data` is ignored in LMTP mode. -/
theorem lmtp_data_replies (srv : Server) (o : Oracle) (c : ConnS) (lines : List String)
    (hl : srv.lmtp = true) (hs : c.hasSession = true)
    (hf : c.fromReceived = true) (hr : c.recipients ≠ []) :
    handle srv o c "DATA" "" lines
      = ({ c with fromReceived := false, recipients := [], recipientsmap := [], xforward := {} },
         Event.reply 354 (.ec 2 0 0) ["Go ahead. End your data with <CR><LF>.<CR><LF>"]
           :: Event.sessData :: (c.recipients.map (lmtpReply o) ++ [Event.sessReset])) := by
  have hdata : handleCore srv o c "DATA" "" lines = .ok (handleData srv o c "") := by
    simp +decide [handleCore, show gUpper "DATA" = "DATA" from rfl]
  simp only [handle, hdata]
  simp [handleData, reset, hl, hs, hf, hr]

/-- C4, witness: the LMTP reply theorem applied to a connection with
three accepted recipients, where the session's `Data` handler returned an
error, the second recipient's context expired first and the other two
received a `250 Finished` status. -/
theorem lmtp_data_replies_witness :
    lmtpSrv.lmtp = true ∧ lmtpConn.hasSession = true ∧ lmtpConn.fromReceived = true
      ∧ lmtpConn.recipients ≠ []
      ∧ handle lmtpSrv lmtpOracle lmtpConn "DATA" "" []
          = ({ lmtpConn with fromReceived := false, recipients := [], recipientsmap := [], xforward := {} },
             Event.reply 354 (.ec 2 0 0) ["Go ahead. End your data with <CR><LF>.<CR><LF>"]
               :: Event.sessData
               :: (lmtpConn.recipients.map (lmtpReply lmtpOracle) ++ [Event.sessReset])) :=
  ⟨rfl, rfl, rfl, by decide,
   lmtp_data_replies lmtpSrv lmtpOracle lmtpConn [] rfl rfl rfl (by decide)⟩

/-- C7. After an `RSET` command, and after a completed `DATA` command
(empty argument, gating satisfied, session present), the envelope is
cleared: `fromReceived` is false, the recipient list and the
duplicate-detection recipient set are empty, the `XForward` record is
zero; `session.Reset` is invoked exactly when a session exists; and both
the `helo` hostname and the session reference are unchanged. -/
theorem reset_after_rset_and_data (srv : Server) (o : Oracle) (c : ConnS)
    (arg : String) (lines : List String) :
    ((handle srv o c "RSET" arg lines).1.fromReceived = false
      ∧ (handle srv o c "RSET" arg lines).1.recipients = []
      ∧ (handle srv o c "RSET" arg lines).1.recipientsmap = []
      ∧ (handle srv o c "RSET" arg lines).1.xforward = {}
      ∧ (handle srv o c "RSET" arg lines).1.helo = c.helo
      ∧ (handle srv o c "RSET" arg lines).1.hasSession = c.hasSession
      ∧ (Event.sessReset ∈ (handle srv o c "RSET" arg lines).2 ↔ c.hasSession = true))
    ∧ (c.hasSession = true → c.fromReceived = true → c.recipients ≠ [] →
      (handle srv o c "DATA" "" lines).1.fromReceived = false
        ∧ (handle srv o c "DATA" "" lines).1.recipients = []
        ∧ (handle srv o c "DATA" "" lines).1.recipientsmap = []
        ∧ (handle srv o c "DATA" "" lines).1.xforward = {}
        ∧ (handle srv o c "DATA" "" lines).1.helo = c.helo
        ∧ (handle srv o c "DATA" "" lines).1.hasSession = c.hasSession
        ∧ Event.sessReset ∈ (handle srv o c "DATA" "" lines).2) := by
  have hrset : handleCore srv o c "RSET" arg lines
      = .ok ((reset c).1, (reset c).2 ++ [Event.reply 250 (.ec 2 0 0) ["Session reset"]]) := by
    simp +decide [handleCore, show gUpper "RSET" = "RSET" from rfl]
  have hdata : handleCore srv o c "DATA" "" lines = .ok (handleData srv o c "") := by
    simp +decide [handleCore, show gUpper "DATA" = "DATA" from rfl]
  constructor
  · simp only [handle, hrset]
    cases hsess : c.hasSession <;> simp [reset, hsess]
  · intro hs hf hr
    simp only [handle, hdata]
    simp [handleData, reset, hs, hf, hr]

/-- C7, witness: the reset theorem applied to a connection with a
session, a sender and three recipients, discharging the `DATA`
hypotheses there. -/
theorem reset_after_rset_and_data_witness :
    lmtpConn.hasSession = true ∧ lmtpConn.fromReceived = true ∧ lmtpConn.recipients ≠ []
      ∧ (handle {} {} lmtpConn "DATA" "" []).1.fromReceived = false
      ∧ (handle {} {} lmtpConn "DATA" "" []).1.helo = lmtpConn.helo
      ∧ Event.sessReset ∈ (handle {} {} lmtpConn "DATA" "" []).2 :=
  ⟨rfl, rfl, by decide,
   ((reset_after_rset_and_data {} {} lmtpConn "" []).2 rfl rfl (by decide)).1,
   ((reset_after_rset_and_data {} {} lmtpConn "" []).2 rfl rfl (by decide)).2.2.2.2.1,
   ((reset_after_rset_and_data {} {} lmtpConn "" []).2 rfl rfl (by decide)).2.2.2.2.2.2⟩

/-- C8, counterexample. With `helo` set, no session, and
`AnonymousLogin` returning the sentinel `ErrAuthRequired`, the `MAIL`
command draws the single reply `502 5.7.0 Please authenticate first` —
there is no reply with code `530` anywhere in the trace, contradicting
the claimed `530 5.7.0`. -/
theorem anon_login_required_cex :
    (handle {} { anonymousLogin := some ErrAuthRequired } { helo := "x" }
        "MAIL" "FROM:<a@b>" []).2
      = [Event.reply 502 (.ec 5 7 0) ["Please authenticate first"]]
    ∧ ∀ e ∈ (handle {} { anonymousLogin := some ErrAuthRequired } { helo := "x" }
        "MAIL" "FROM:<a@b>" []).2, replyCode e ≠ some 530 := by decide

/-- C8, amended. When a `MAIL` command arrives with no session
established and `AnonymousLogin` returns the sentinel `ErrAuthRequired`
(not an `*SMTPError`), the server replies with code `502` and enhanced
code `5.7.0` carrying the sentinel's message; the state is returned
unchanged, so no session is installed and `fromReceived` remains false. -/
theorem anon_login_required (srv : Server) (o : Oracle) (c : ConnS) (arg : String)
    (lines : List String) (hh : c.helo ≠ "") (hs : c.hasSession = false)
    (ha : o.anonymousLogin = some ErrAuthRequired) :
    handle srv o c "MAIL" arg lines
      = (c, [Event.reply 502 (.ec 5 7 0) ["Please authenticate first"]]) := by
  have hmail : handleCore srv o c "MAIL" arg lines = .ok (handleMail srv o c arg) := by
    simp +decide [handleCore, show gUpper "MAIL" = "MAIL" from rfl]
  simp only [handle, hmail]
  simp [handleMail, ErrAuthRequired, hh, hs, ha]

/-- C8, witness: the amended theorem applied at a concrete connection
with `helo = "x"` and no session. -/
theorem anon_login_required_witness :
    ({ helo := "x" } : ConnS).helo ≠ ""
      ∧ ({ helo := "x" } : ConnS).hasSession = false
      ∧ ({ anonymousLogin := some ErrAuthRequired } : Oracle).anonymousLogin
          = some ErrAuthRequired
      ∧ handle {} { anonymousLogin := some ErrAuthRequired } { helo := "x" }
          "MAIL" "FROM:<a@b>" []
          = ({ helo := "x" },
             [Event.reply 502 (.ec 5 7 0) ["Please authenticate first"]]) :=
  ⟨by decide, rfl, rfl,
   anon_login_required {} { anonymousLogin := some ErrAuthRequired } { helo := "x" }
     "FROM:<a@b>" [] (by decide) rfl rfl⟩

/-- C9, counterexample. A bad base64 initial response on the AUTH command
line (`AUTH PLAIN ####`, where `####` does not decode) makes the handler
return with no reply at all — the trace is empty, so in particular no
`454 4.7.0 Invalid base64 data` is sent, contradicting the claim that
every failed client base64 decode draws that reply. -/
theorem auth_bad_initial_b64_cex :
    base64Decode "####" = none
      ∧ (handle {} {} { helo := "x" } "AUTH" "PLAIN ####" []).2 = [] := by decide

/-- C9, amended. Only a base64 continuation response sent after a `334`
challenge that fails to decode draws `454 4.7.0 Invalid base64 data`; a
bad base64 initial response on the AUTH command line makes the handler
return silently, with no reply and the state unchanged (the decode
happens before the mechanism is even looked up). -/
theorem auth_bad_b64_replies (srv : Server) (o : Oracle) (c : ConnS) (arg : String)
    (p0 p1 l : String) (lines : List String)
    (hh : c.helo ≠ "") (hd : srv.authDisabled = false) :
    (goFields arg = [p0, p1] → base64Decode p1 = none →
      handle srv o c "AUTH" arg lines = (c, []))
    ∧ (goFields arg = [p0] → gUpper p0 ∈ srv.auths →
      (o.saslSteps 0).err = none → (o.saslSteps 0).done = false →
      (o.saslSteps 0).installsSession = false → base64Decode l = none →
      handle srv o c "AUTH" arg (l :: lines)
        = (c, [Event.reply 334 .noCode
                 [if (o.saslSteps 0).challenge.length > 0
                  then base64Encode (o.saslSteps 0).challenge else ""],
               Event.reply 454 (.ec 4 7 0) ["Invalid base64 data"]])) := by
  have hauth : ∀ ls, handleCore srv o c "AUTH" arg ls = .ok (handleAuth srv o c arg ls) := by
    intro ls
    simp +decide [handleCore, hd, show gUpper "AUTH" = "AUTH" from rfl]
  constructor
  · intro hgf hb
    simp only [handle, hauth]
    simp [handleAuth, hh, hgf, hb]
  · intro hgf hmem herr hdone hins hb
    simp only [handle, hauth]
    simp [handleAuth, authLoop, hh, hgf, hmem, herr, hdone, hins, hb]

/-- C9, witness: the amended theorem applied at `AUTH PLAIN ####` (bad
initial response, silent return) and at an `AUTH PLAIN` exchange whose
continuation line `!!` fails to decode (454 reply). -/
theorem auth_bad_b64_replies_witness :
    (({ helo := "x" } : ConnS).helo ≠ ""
        ∧ ({} : Server).authDisabled = false
        ∧ goFields "PLAIN ####" = ["PLAIN", "####"]
        ∧ base64Decode "####" = none
        ∧ handle {} {} { helo := "x" } "AUTH" "PLAIN ####" [] = ({ helo := "x" }, []))
      ∧ (goFields "PLAIN" = ["PLAIN"]
        ∧ gUpper "PLAIN" ∈ ({} : Server).auths
        ∧ base64Decode "!!" = none
        ∧ handle {} {} { helo := "x" } "AUTH" "PLAIN" ["!!"]
            = ({ helo := "x" },
               [Event.reply 334 .noCode [""],
                Event.reply 454 (.ec 4 7 0) ["Invalid base64 data"]])) :=
  ⟨⟨by decide, rfl, by decide, by decide,
    (auth_bad_b64_replies {} {} { helo := "x" } "PLAIN ####" "PLAIN" "####" "!!" []
        (by decide) rfl).1 (by decide) (by decide)⟩,
   ⟨by decide, by decide, by decide,
    (auth_bad_b64_replies {} {} { helo := "x" } "PLAIN" "PLAIN" "####" "!!" []
        (by decide) rfl).2 (by decide) (by decide) rfl rfl rfl (by decide)⟩⟩

/-- C10. With XFORWARD enabled, a single whitespace-separated token that
has no `=` and whose upper-casing is one of the recognized keys `NAME`,
`ADDR`, `PROTO`, `HELO` makes `handleXForward` index past the end of the
split token — a Go panic — and the per-command panic guard then replies
`421 4.0.0 Internal server error` and closes the connection; whereas a
token with an unknown key gets the `501` parameter-syntax reply and the
connection stays open. -/
theorem xforward_missing_value (srv : Server) (o : Oracle) (c : ConnS)
    (t : String) (lines : List String)
    (hx : srv.allowXForward = true)
    (hs1 : gSplit t ' ' = [t]) (he : gSplit t '=' = [t]) :
    (gUpper t ∈ ["NAME", "ADDR", "PROTO", "HELO"] →
      handle srv o c "XFORWARD" t lines
        = ({ c with closed := true },
           Event.reply 421 (.ec 4 0 0) ["Internal server error"]
             :: ((if c.hasSession then [Event.sessLogout] else []) ++ [Event.connClosed])))
    ∧ (gUpper t ∉ ["NAME", "ADDR", "PROTO", "HELO"] →
      handle srv o c "XFORWARD" t lines
        = (c, [Event.reply 501 (.ec 2 5 1) ["Bad command parameter syntax"]])) := by
  have hxf : handleCore srv o c "XFORWARD" t lines = handleXForward c t := by
    simp +decide [handleCore, hx, show gUpper "XFORWARD" = "XFORWARD" from rfl]
  constructor
  · intro hmem
    simp only [List.mem_cons, List.not_mem_nil, or_false] at hmem
    rcases hmem with h | h | h | h <;>
      · simp only [handle, hxf, handleXForward, hs1]
        simp [xforwardLoop, he, h, close]
  · intro hmem
    simp only [List.mem_cons, List.not_mem_nil, or_false, not_or] at hmem
    obtain ⟨h1, h2, h3, h4⟩ := hmem
    simp only [handle, hxf, handleXForward, hs1]
    simp [xforwardLoop, he, h1, h2, h3, h4]

/-- C10, witness: the panic theorem applied at the token `NAME` (421 and
close) and at the token `FOO` (501, connection open). -/
theorem xforward_missing_value_witness :
    (({ allowXForward := true } : Server).allowXForward = true
        ∧ gSplit "NAME" ' ' = ["NAME"] ∧ gSplit "NAME" '=' = ["NAME"]
        ∧ gUpper "NAME" ∈ ["NAME", "ADDR", "PROTO", "HELO"]
        ∧ handle { allowXForward := true } {} {} "XFORWARD" "NAME" []
            = ({ closed := true },
               [Event.reply 421 (.ec 4 0 0) ["Internal server error"], Event.connClosed]))
      ∧ (gSplit "FOO" ' ' = ["FOO"] ∧ gSplit "FOO" '=' = ["FOO"]
        ∧ gUpper "FOO" ∉ ["NAME", "ADDR", "PROTO", "HELO"]
        ∧ handle { allowXForward := true } {} {} "XFORWARD" "FOO" []
            = ({}, [Event.reply 501 (.ec 2 5 1) ["Bad command parameter syntax"]])) :=
  ⟨⟨rfl, by decide, by decide, by decide,
    (xforward_missing_value { allowXForward := true } {} {} "NAME" [] rfl
        (by decide) (by decide)).1 (by decide)⟩,
   ⟨by decide, by decide, by decide,
    (xforward_missing_value { allowXForward := true } {} {} "FOO" [] rfl
        (by decide) (by decide)).2 (by decide)⟩⟩

end GoSmtp
